import Mathlib

/-!
Shallow embedding of the payment-workflow repository
(`src/workflows/runner.py`, `src/workflow_code.py`,
`src/plugins/implementations.py`) and verification of its
specified properties.

Python floats are modelled as rationals (every literal in the mock data
is dyadic, so the order/arithmetic used by the code is exact); Python
dicts that the code mutates are modelled as association lists in
insertion order; `datetime` and `uuid` values are passed in explicitly
as parameters, since the code only threads them into output strings.
-/

namespace PaymentWorkflow

/-- Association-list lookup, modelling Python `dict[key]` /
`key in dict`. -/
def lookupKey (k : String) : List (String × α) → Option α
  | [] => none
  | (k', v) :: rest => if k' = k then some v else lookupKey k rest

/-- Association-list update at a (present) key, modelling in-place
mutation of the object stored in a Python dict. -/
def updateKey (k : String) (f : α → α) : List (String × α) → List (String × α)
  | [] => []
  | (k', v) :: rest =>
    if k' = k then (k', f v) :: rest else (k', v) :: updateKey k f rest

theorem lookup_update_self (k : String) (f : α → α) :
    ∀ l : List (String × α),
      lookupKey k (updateKey k f l) = (lookupKey k l).map f := by
  intro l
  induction l with
  | nil => rfl
  | cons hd tl ih =>
    obtain ⟨k', v⟩ := hd
    by_cases h : k' = k
    · simp [lookupKey, updateKey, h]
    · simp [lookupKey, updateKey, h, ih]

/-! ## Data model of `src/plugins/implementations.py` -/

/-- `ServiceInfo` (implementations.py): information about a service. -/
structure ServiceInfo where
  id : String := ""
  name : String := ""
  category : String := ""
deriving DecidableEq, Repr

/-- `AccountInfo` (implementations.py): a customer account. -/
structure AccountInfo where
  id : String := ""
  balance : ℚ := 0
  currency : String := "S/."
deriving DecidableEq, Repr

/-- `BalanceInfo` (implementations.py): balance query response. -/
structure BalanceInfo where
  balance : ℚ
  currency : String := "S/."
  error_message : String := ""
deriving DecidableEq, Repr

/-- `PaymentResult` (implementations.py): result of a payment. -/
structure PaymentResult where
  receipt_id : String := ""
  receipt_details : String := ""
  error_message : String := ""
deriving DecidableEq, Repr

/-- `ReceiptInfo` (implementations.py): a stored receipt. -/
structure ReceiptInfo where
  receipt_id : String := ""
  account_id : String := ""
  service_id : String := ""
  service_name : String := ""
  amount : ℚ := 0
  currency : String := "S/."
  timestamp : String := ""
deriving DecidableEq, Repr

/-- `BillInfo` (implementations.py): a bill record. -/
structure BillInfo where
  bill_id : String := ""
  customer_id : String := ""
  service_id : String := ""
  service_name : String := ""
  amount : ℚ := 0
  currency : String := "S/."
  due_date : String := ""
  period : String := ""
  status : String := ""
  error_message : String := ""
deriving DecidableEq, Repr

/-- The mutable stores of a `PaymentPlugin` instance
(`self._accounts`, `self._services`, `self._receipts`). -/
structure PluginState where
  accounts : List (String × AccountInfo)
  services : List (String × ServiceInfo)
  receipts : List (String × ReceiptInfo)
deriving DecidableEq, Repr

/-- The stores as initialised by `PaymentPlugin.__init__`. -/
def pluginInit : PluginState where
  accounts :=
    [ ("acct-123", { id := "acct-123", balance := 20.50, currency := "S/." })
    , ("acct-124", { id := "acct-124", balance := 250.00, currency := "S/." }) ]
  services :=
    [ ("SVC001", { id := "SVC001", name := "Luz del Sur", category := "Electricidad" })
    , ("SVC002", { id := "SVC002", name := "Sedapal", category := "Agua" })
    , ("SVC003", { id := "SVC003", name := "Claro Móvil", category := "Telefonía" })
    , ("SVC004", { id := "SVC004", name := "Netflix", category := "Streaming" })
    , ("SVC005", { id := "SVC005", name := "Movistar Hogar", category := "Internet" }) ]
  receipts := []

/-- An instant of `datetime`, carrying the two renderings the code
uses (`isoformat()` and `strftime`). -/
structure Timestamp where
  iso : String
  human : String
deriving DecidableEq, Repr

/-- Python `f"{x:.2f}"` on a rational. -/
def fmt2 (q : ℚ) : String :=
  let cents : ℤ := round (q * 100)
  let sign := if cents < 0 then "-" else ""
  let n := cents.natAbs
  sign ++ toString (n / 100) ++ "." ++
    (if n % 100 < 10 then "0" else "") ++ toString (n % 100)

/-- `PaymentPlugin.get_balance`. -/
def get_balance (st : PluginState) (account_id : String) : BalanceInfo :=
  match lookupKey account_id st.accounts with
  | some account =>
    { balance := account.balance, currency := account.currency, error_message := "" }
  | none =>
    { balance := 0, currency := "S/.",
      error_message := "Account " ++ account_id ++ " not found." }

/-- `uuid.uuid4().hex[:12].upper()`: the receipt-id suffix computed
from the 32-char lowercase hex rendering of a fresh UUID. -/
def receiptSuffix (uuidHex : List Char) : List Char :=
  (uuidHex.take 12).map Char.toUpper

/-- `PaymentPlugin.pay_service`. `uuidHex` stands for `uuid.uuid4().hex`
and `now` for `datetime.utcnow()`; both only flow into output strings. -/
def pay_service (st : PluginState) (account_id service_id : String) (amount : ℚ)
    (uuidHex : List Char) (now : Timestamp) : PaymentResult × PluginState :=
  match lookupKey account_id st.accounts with
  | none =>
    ({ receipt_id := "", receipt_details := "",
       error_message := "Account " ++ account_id ++ " not found." }, st)
  | some account =>
    if account.balance < amount then
      ({ receipt_id := "", receipt_details := "",
         error_message := "Insufficient funds." }, st)
    else
      match lookupKey service_id st.services with
      | none =>
        ({ receipt_id := "", receipt_details := "",
           error_message := "Service " ++ service_id ++ " not found." }, st)
      | some service =>
        let receipt_id := "RCP-" ++ String.mk (receiptSuffix uuidHex)
        let receipt : ReceiptInfo :=
          { receipt_id := receipt_id, account_id := account_id,
            service_id := service_id, service_name := service.name,
            amount := amount, currency := account.currency,
            timestamp := now.iso }
        ({ receipt_id := receipt_id,
           receipt_details :=
             "Pago de " ++ fmt2 amount ++ " " ++ account.currency ++ " a " ++
               service.name ++ " realizado exitosamente. Fecha: " ++ now.human,
           error_message := "" },
         { st with
             accounts :=
               updateKey account_id
                 (fun a => { a with balance := a.balance - amount }) st.accounts,
             receipts := st.receipts ++ [(receipt_id, receipt)] })

/-! ## Data model of `src/agents/models.py` and the workflow state of
`src/workflow_code.py` -/

/-- `ServiceSelectionResult` (agents/models.py). -/
structure ServiceSelectionResult where
  IsComplete : Bool
  ServiceId : String
  ServiceName : String
  UserMessage : String
deriving DecidableEq, Repr

/-- `BalanceResult` (agents/models.py). -/
structure BalanceResult where
  Balance : ℚ
  Currency : String
  ErrorMessage : String
deriving DecidableEq, Repr

/-- `PaymentConfirmationResult` (agents/models.py). -/
structure PaymentConfirmationResult where
  IsComplete : Bool
  Confirmed : Bool
  Amount : ℚ
  ServiceId : String
  UserMessage : String
deriving DecidableEq, Repr

/-- `PaymentExecutionResult` (agents/models.py). -/
structure PaymentExecutionResult where
  ReceiptId : String
  ReceiptDetails : String
  ErrorMessage : String
deriving DecidableEq, Repr

/-- `WorkflowState` (workflow_code.py): shared mutable state threaded
through the executors. -/
structure WorkflowState where
  user_message : String := ""
  customer_id : String := "cust-1"
  account_id : String := "acct-123"
  service_selection : Option ServiceSelectionResult := none
  balance : Option BalanceResult := none
  confirmation : Option PaymentConfirmationResult := none
  payment : Option PaymentExecutionResult := none
deriving DecidableEq, Repr

/-- The visible effect of one executor handler on the workflow run:
`ctx.yield_output msg` (terminal) or `ctx.send_message state`
(forward along the outgoing edge). -/
inductive ExecAction where
  | yieldOutput (msg : String)
  | forward (state : WorkflowState)
deriving DecidableEq, Repr

/-- The part of a `ChatAgent.run` response the executors use: the last
message text (only printed). The agent itself is a remote oracle. -/
structure AgentResponse where
  text : String
deriving Repr

/-- Python `str()` of a float interpolated into an f-string; the exact
decimal rendering is abstracted behind this helper. -/
def fmtQ (q : ℚ) : String := toString q

/-- The insufficient-funds message built in
`DecisionExecutor.handle_decision` (workflow_code.py lines 208-214). -/
def insufficientFundsMessage (amount balance : ℚ) (currency : String) : String :=
  "❌ Fondos insuficientes: El monto a pagar (" ++ fmtQ amount ++ " " ++
    currency ++ ") \n" ++ "es mayor que tu saldo disponible (" ++
    fmtQ balance ++ " " ++ currency ++ ").\n" ++
    "No se realizó el pago. ¿Deseas pagar otro servicio?"

/-- The cancellation message of `DecisionExecutor.handle_decision`. -/
def cancelledMessage : String :=
  "Entendido, no realizo el pago. ¿Quieres pagar otro servicio?"

/-- The non-positive-amount message of `DecisionExecutor.handle_decision`. -/
def amountNotPositiveMessage : String :=
  "El monto debe ser mayor que 0. No se pudo procesar el pago."

/-- `DecisionExecutor.handle_decision` (workflow_code.py lines 187-219).
In the source, after `if not state.confirmation.Confirmed: return`, the
check `if state.confirmation.Confirmed:` is always taken, so the embedding
enters that block directly in the else branch.  Note the insufficient-funds
check is guarded by `state.balance and ...`, i.e. skipped when `balance`
is `None`. -/
def handle_decision (state : WorkflowState) : ExecAction :=
  match state.confirmation with
  | none => .yieldOutput "Error: No confirmation data"
  | some conf =>
    if conf.Confirmed = false then
      .yieldOutput cancelledMessage
    else
      if conf.Amount ≤ 0 then
        .yieldOutput amountNotPositiveMessage
      else
        match state.balance with
        | some bal =>
          if conf.Amount > bal.Balance then
            .yieldOutput (insufficientFundsMessage conf.Amount bal.Balance bal.Currency)
          else
            .forward state
        | none => .forward state

/-- `ConfirmationExecutor.handle_confirmation` (workflow_code.py lines
145-177).  The agent call (performed once; the loop in the source breaks after
its first iteration) is an oracle over the arguments the source passes;
its response is only printed, after which the state is forwarded. -/
def handle_confirmation
    (agentRun : String × String × String × ℚ × String → AgentResponse)
    (state : WorkflowState) : ExecAction :=
  match state.service_selection, state.balance with
  | some sel, some bal =>
    let _resp := agentRun
      (state.customer_id, sel.ServiceId, sel.ServiceName, bal.Balance, bal.Currency)
    .forward state
  | _, _ => .yieldOutput "Error: Missing required data"

/-- The receipt message built by `PaymentExecutor.handle_payment`
(workflow_code.py lines 253-257); `state.payment` is still `None` when the
parsing step is stubbed, yielding the `N/A` branch. -/
def receiptMessage (payment : Option PaymentExecutionResult) : String :=
  "✅ Pago confirmado — ReceiptId: " ++
    (match payment with | some p => p.ReceiptId | none => "N/A") ++ "\n" ++
    (match payment with | some p => p.ReceiptDetails | none => "") ++ "\n" ++
    "¿Deseas realizar otro pago?"

/-- `PaymentExecutor.handle_payment` (workflow_code.py lines 233-259). -/
def handle_payment
    (agentRun : String × String × ℚ → AgentResponse)
    (state : WorkflowState) : ExecAction :=
  match state.confirmation, state.service_selection with
  | some conf, some sel =>
    let _resp := agentRun (state.account_id, sel.ServiceId, conf.Amount)
    .yieldOutput (receiptMessage state.payment)
  | _, _ => .yieldOutput "Error: Missing payment data"

/-! ## `WorkflowRunner` (src/workflows/runner.py) -/

/-- A completed function-call request collected by the monitor:
`{call_id, name, arguments}` (runner.py lines 164-168). -/
structure FunctionCall where
  call_id : String
  name : String
  arguments : String
deriving DecidableEq, Repr

/-- A `function_call_output` entry of the `tool_outputs` batch
(runner.py lines 77-81). -/
structure FunctionCallOutput where
  type : String
  call_id : String
  output : String
deriving DecidableEq, Repr

/-- The discriminated item payload of an output-item stream event:
a workflow action, an assistant message, or a function call carrying
`{call_id, name, arguments, status}`. -/
inductive ItemInfo where
  | workflowAction (action_id : String) (status : String)
  | assistantMessage (id : String) (agentName : Option String)
  | functionCall (call_id name arguments status : String)
deriving DecidableEq, Repr

/-- One streaming event of a remote turn, as discriminated by
`monitor_workflow_async` (runner.py lines 126-195). -/
inductive StreamEvent where
  | outputItemAdded (item : ItemInfo)
  | outputItemDone (item : ItemInfo)
  | outputTextDelta (delta : String)
  | outputTextDone (text : String)
  | activity (text : String)
  | responseCompleted (totalTokens inputTokens outputTokens : ℕ)
deriving DecidableEq, Repr

/-- The loop-local state of `monitor_workflow_async`: `has_streamed`,
`message_id`, `pending_function_calls` (runner.py lines 122-124). -/
structure MonitorState where
  hasStreamed : Bool
  messageId : Option String
  pending : List FunctionCall
deriving DecidableEq, Repr

/-- One iteration of the event loop of `monitor_workflow_async`
(runner.py lines 126-195).  Console printing is a side effect the
return value never depends on; the state it does thread
(`has_streamed`, `message_id`, `pending_function_calls`) is modelled
exactly. -/
def monitorStep (ms : MonitorState) (e : StreamEvent) : MonitorState :=
  match e with
  | .outputItemAdded item =>
    match item with
    | .workflowAction _ _ => ms
    | .assistantMessage id _ =>
      if some id ≠ ms.messageId then
        { ms with messageId := some id, hasStreamed := false }
      else ms
    | .functionCall _ _ _ _ => ms
  | .outputItemDone item =>
    match item with
    | .workflowAction _ _ => ms
    | .functionCall cid nm args status =>
      if status = "completed" then
        { ms with pending := ms.pending ++ [⟨cid, nm, args⟩] }
      else ms
    | .assistantMessage _ _ => ms
  | .outputTextDelta _ => { ms with hasStreamed := true }
  | .outputTextDone t =>
    if t ≠ "" ∧ ms.hasStreamed = false then { ms with hasStreamed := true } else ms
  | .activity _ => ms
  | .responseCompleted _ _ _ => ms

/-- `WorkflowRunner.monitor_workflow_async` (runner.py lines 91-197),
reduced to the value it returns: the event stream of the turn folded through
`monitorStep`, yielding `pending_function_calls`. -/
def monitor_workflow (events : List StreamEvent) : List FunctionCall :=
  (events.foldl monitorStep { hasStreamed := false, messageId := none, pending := [] }).pending

/-- The batch of `FunctionCallOutput`s built from the current turn function
calls (runner.py lines 74-81); `invokeRes fc` stands for
`json.dumps(self.invoke_function(fc.name, fc.arguments))`. -/
def buildToolOutputs (invokeRes : FunctionCall → String)
    (calls : List FunctionCall) : List FunctionCallOutput :=
  calls.map fun fc =>
    { type := "function_call_output", call_id := fc.call_id, output := invokeRes fc }

/-- The loop variables of `WorkflowRunner.execute_async`
(runner.py lines 56-58), plus the number of turns submitted so far. -/
structure LoopState where
  isComplete : Bool
  currentInput : String
  toolOutputs : Option (List FunctionCallOutput)
  turn : ℕ
deriving DecidableEq, Repr

/-- Initial loop state of `execute_async`: `is_complete = False`,
`current_input = user_input`, `tool_outputs = None`. -/
def initLoopState (user_input : String) : LoopState :=
  { isComplete := false, currentInput := user_input, toolOutputs := none, turn := 0 }

/-- One iteration of the `while not is_complete` loop of
`execute_async` (runner.py lines 60-87).  `turns k` is what
`monitor_workflow_async` returns for the `k`-th submitted turn (the
remote side is an oracle).  A completed state never steps again. -/
def loopStep (turns : ℕ → List FunctionCall) (invokeRes : FunctionCall → String)
    (s : LoopState) : LoopState :=
  if s.isComplete then s
  else
    let function_calls := turns s.turn
    if function_calls.isEmpty then
      { s with isComplete := true, turn := s.turn + 1 }
    else
      { isComplete := false, currentInput := "",
        toolOutputs := some (buildToolOutputs invokeRes function_calls),
        turn := s.turn + 1 }

/-- The loop state of `execute_async` after `n` iterations. -/
def loopIter (turns : ℕ → List FunctionCall) (invokeRes : FunctionCall → String)
    (user_input : String) : ℕ → LoopState
  | 0 => initLoopState user_input
  | n + 1 => loopStep turns invokeRes (loopIter turns invokeRes user_input n)

/-- A turn oracle modelling a misbehaving remote side: each turn the
monitor pass reports one pending function call. -/
def alwaysPendingTurns : ℕ → List FunctionCall :=
  fun _ => [{ call_id := "call-1", name := "get_balance", arguments := "" }]

/-! ## Serialization of structured tool results
(`invoke_function`, runner.py lines 224-228, over the Pydantic record
types of implementations.py) -/

/-- A plain JSON-serializable scalar, the field values of the record
types the registered tools return. -/
inductive JValue where
  | str (s : String)
  | num (q : ℚ)
deriving DecidableEq, Repr

/-- `ServiceInfo.model_dump()`. -/
def ServiceInfo.model_dump (s : ServiceInfo) : List (String × JValue) :=
  [("id", .str s.id), ("name", .str s.name), ("category", .str s.category)]

/-- `BalanceInfo.model_dump()`. -/
def BalanceInfo.model_dump (b : BalanceInfo) : List (String × JValue) :=
  [("balance", .num b.balance), ("currency", .str b.currency),
   ("error_message", .str b.error_message)]

/-- `PaymentResult.model_dump()`. -/
def PaymentResult.model_dump (p : PaymentResult) : List (String × JValue) :=
  [("receipt_id", .str p.receipt_id), ("receipt_details", .str p.receipt_details),
   ("error_message", .str p.error_message)]

/-- `BillInfo.model_dump()`. -/
def BillInfo.model_dump (b : BillInfo) : List (String × JValue) :=
  [("bill_id", .str b.bill_id), ("customer_id", .str b.customer_id),
   ("service_id", .str b.service_id), ("service_name", .str b.service_name),
   ("amount", .num b.amount), ("currency", .str b.currency),
   ("due_date", .str b.due_date), ("period", .str b.period),
   ("status", .str b.status), ("error_message", .str b.error_message)]

/-- Read a declared string field from a dumped map, falling back to the
Pydantic default when absent. -/
def fieldStr (m : List (String × JValue)) (k : String) (dflt : String) : Option String :=
  match lookupKey k m with
  | some (.str s) => some s
  | some _ => none
  | none => some dflt

/-- Read a declared numeric field from a dumped map, falling back to the
Pydantic default when absent. -/
def fieldNum (m : List (String × JValue)) (k : String) (dflt : ℚ) : Option ℚ :=
  match lookupKey k m with
  | some (.num q) => some q
  | some _ => none
  | none => some dflt

/-- Pydantic validation of `ServiceInfo` from a plain map
(`extra = "forbid"`: unknown keys are rejected). -/
def ServiceInfo.model_validate (m : List (String × JValue)) : Option ServiceInfo :=
  if (m.map Prod.fst).all (fun k => k ∈ ["id", "name", "category"]) then
    (fieldStr m "id" "").bind fun i =>
    (fieldStr m "name" "").bind fun n =>
    (fieldStr m "category" "").map fun c =>
    { id := i, name := n, category := c }
  else none

/-- Pydantic validation of `BalanceInfo` from a plain map. -/
def BalanceInfo.model_validate (m : List (String × JValue)) : Option BalanceInfo :=
  if (m.map Prod.fst).all (fun k => k ∈ ["balance", "currency", "error_message"]) then
    (fieldNum m "balance" 0).bind fun b =>
    (fieldStr m "currency" "S/.").bind fun c =>
    (fieldStr m "error_message" "").map fun e =>
    { balance := b, currency := c, error_message := e }
  else none

/-- Pydantic validation of `PaymentResult` from a plain map. -/
def PaymentResult.model_validate (m : List (String × JValue)) : Option PaymentResult :=
  if (m.map Prod.fst).all
      (fun k => k ∈ ["receipt_id", "receipt_details", "error_message"]) then
    (fieldStr m "receipt_id" "").bind fun r =>
    (fieldStr m "receipt_details" "").bind fun d =>
    (fieldStr m "error_message" "").map fun e =>
    { receipt_id := r, receipt_details := d, error_message := e }
  else none

/-- Pydantic validation of `BillInfo` from a plain map. -/
def BillInfo.model_validate (m : List (String × JValue)) : Option BillInfo :=
  if (m.map Prod.fst).all
      (fun k => k ∈ ["bill_id", "customer_id", "service_id", "service_name",
                     "amount", "currency", "due_date", "period", "status",
                     "error_message"]) then
    (fieldStr m "bill_id" "").bind fun bi =>
    (fieldStr m "customer_id" "").bind fun cu =>
    (fieldStr m "service_id" "").bind fun si =>
    (fieldStr m "service_name" "").bind fun sn =>
    (fieldNum m "amount" 0).bind fun am =>
    (fieldStr m "currency" "S/.").bind fun cy =>
    (fieldStr m "due_date" "").bind fun dd =>
    (fieldStr m "period" "").bind fun pe =>
    (fieldStr m "status" "").bind fun st =>
    (fieldStr m "error_message" "").map fun e =>
    { bill_id := bi, customer_id := cu, service_id := si, service_name := sn,
      amount := am, currency := cy, due_date := dd, period := pe,
      status := st, error_message := e }
  else none

/-- A structured result one of the registered tools returns:
`list_favorite_services` a list of `ServiceInfo`, `get_balance` a
`BalanceInfo`, `pay_service` a `PaymentResult`, `get_latest_bill` a
`BillInfo`. -/
inductive ToolResult where
  | services (l : List ServiceInfo)
  | balance (b : BalanceInfo)
  | payment (p : PaymentResult)
  | bill (b : BillInfo)
deriving DecidableEq, Repr

/-- The plain serializable value `invoke_function` returns:
single record → map; list of records → list of maps. -/
inductive PlainValue where
  | map (m : List (String × JValue))
  | list (ms : List (List (String × JValue)))
deriving DecidableEq, Repr

/-- The result-conversion step of `WorkflowRunner.invoke_function`
(runner.py lines 224-228): a record with `model_dump` is dumped to a
map; a list of such records is dumped elementwise. -/
def invokeConvert : ToolResult → PlainValue
  | .services l => .list (l.map ServiceInfo.model_dump)
  | .balance b => .map b.model_dump
  | .payment p => .map p.model_dump
  | .bill b => .map b.model_dump

/-- The sixteen lowercase hexadecimal digits (the alphabet of
`uuid.uuid4().hex`). -/
def lowerHexChars : List Char := "0123456789abcdef".toList

/-- The sixteen uppercase hexadecimal digits. -/
def upperHexChars : List Char := "0123456789ABCDEF".toList

/-- The characterization from the spec of which events contribute a
pending call: an item-done event for a function-call item whose status
is "completed", recorded as `{call_id, name, arguments}`. -/
def completedCall : StreamEvent → Option FunctionCall
  | .outputItemDone (.functionCall cid nm args status) =>
    if status = "completed" then some ⟨cid, nm, args⟩ else none
  | _ => none

/-- Elementwise reconstruction of a list of `ServiceInfo` records from
a list of plain maps (the inverse direction of the list branch of
the conversion in `invoke_function`). -/
def validateServices : List (List (String × JValue)) → Option (List ServiceInfo)
  | [] => some []
  | m :: rest =>
    (ServiceInfo.model_validate m).bind fun s =>
      (validateServices rest).map fun l => s :: l

/-! ## Helper lemmas -/

theorem toUpper_lowerHex_mem (c : Char) (h : c ∈ lowerHexChars) :
    c.toUpper ∈ upperHexChars := by
  have hall : lowerHexChars.all (fun x => decide (x.toUpper ∈ upperHexChars)) = true := by
    decide
  have hc := List.all_eq_true.mp hall c h
  simpa using hc

theorem rcp_ne_empty (t : String) : "RCP-" ++ t ≠ "" := by
  intro h
  have h4 : ("RCP-" ++ t).length = 4 + t.length := by
    rw [String.length_append]
    have : ("RCP-" : String).length = 4 := rfl
    omega
  rw [h] at h4
  have h0 : ("" : String).length = 0 := rfl
  omega

theorem monitorStep_pending (ms : MonitorState) (e : StreamEvent) :
    (monitorStep ms e).pending = ms.pending ++ (completedCall e).toList := by
  cases e with
  | outputItemAdded item =>
    cases item with
    | workflowAction a s => simp [monitorStep, completedCall]
    | assistantMessage i n =>
      by_cases h : some i = ms.messageId <;> simp [monitorStep, completedCall, h]
    | functionCall a b c d => simp [monitorStep, completedCall]
  | outputItemDone item =>
    cases item with
    | workflowAction a s => simp [monitorStep, completedCall]
    | assistantMessage i n => simp [monitorStep, completedCall]
    | functionCall cid nm args status =>
      by_cases h : status = "completed" <;> simp [monitorStep, completedCall, h]
  | outputTextDelta d => simp [monitorStep, completedCall]
  | outputTextDone t =>
    by_cases h : t ≠ "" ∧ ms.hasStreamed = false <;>
      simp [monitorStep, completedCall, h]
  | activity a => simp [monitorStep, completedCall]
  | responseCompleted a b c => simp [monitorStep, completedCall]

theorem monitor_foldl_pending (events : List StreamEvent) :
    ∀ ms : MonitorState,
      (events.foldl monitorStep ms).pending
        = ms.pending ++ events.filterMap completedCall := by
  induction events with
  | nil => intro ms; simp
  | cons e rest ih =>
    intro ms
    rw [List.foldl_cons, ih, monitorStep_pending]
    cases h : completedCall e <;> simp [List.filterMap_cons, h]

theorem handle_decision_nonpositive (ws : WorkflowState)
    (c : PaymentConfirmationResult) (hc : ws.confirmation = some c)
    (hcf : c.Confirmed = true) (hamt : c.Amount ≤ 0) :
    handle_decision ws = .yieldOutput amountNotPositiveMessage := by
  simp [handle_decision, hc, hcf, hamt]

theorem loopIter_alwaysPending_not_complete
    (invokeRes : FunctionCall → String) (inp : String) (n : ℕ) :
    (loopIter alwaysPendingTurns invokeRes inp n).isComplete = false := by
  induction n with
  | zero => rfl
  | succ n ih =>
    simp [loopIter, loopStep, ih, alwaysPendingTurns]

/-! ## Claim theorems -/

/-- C1: the claim asserts that `WorkflowRunner.execute_async` guards a
misbehaving remote side with a maximum turn count and fails with
`LoopBudgetExceeded`.  The code has no such guard: under a turn oracle
whose every Streaming Monitor pass reports one pending function call,
the `while not is_complete` loop never reaches a completed state after
any number of iterations — it runs unbounded. -/
theorem execute_async_has_no_loop_budget :
    ¬ ∃ n : ℕ,
      (loopIter alwaysPendingTurns (fun _ => "") "pay my bills" n).isComplete = true := by
  rintro ⟨n, hn⟩
  rw [loopIter_alwaysPending_not_complete] at hn
  exact Bool.false_ne_true hn

/-- C3: the Streaming Monitor returns exactly the function-call items
observed in an item-done event with status "completed", each recorded
as `{call_id, name, arguments}`, in order; announced-but-never-completed
calls are absent and the monitor returns normally. -/
theorem monitor_returns_exactly_completed (events : List StreamEvent) :
    monitor_workflow events = events.filterMap completedCall := by
  rw [monitor_workflow, monitor_foldl_pending]
  rfl

/-- C2: within one turn of the dispatch loop, the submitted batch of
`FunctionCallOutput`s is built fresh from — and only from — the calls
the Streaming Monitor returned this turn: one output per call carrying
the `call_id` of that call, in the same order (hence no duplicates when the
monitored call_ids are distinct and no ids from an earlier turn);
when the monitor returns no calls the loop completes and submits
nothing. -/
theorem tool_outputs_batch_per_turn
    (invokeRes : FunctionCall → String) (turns : ℕ → List FunctionCall)
    (s : LoopState) (calls : List FunctionCall)
    (hrun : s.isComplete = false) (hcalls : turns s.turn = calls) :
    ((buildToolOutputs invokeRes calls).map FunctionCallOutput.call_id
      = calls.map FunctionCall.call_id)
    ∧ ((calls.map FunctionCall.call_id).Nodup →
        ((buildToolOutputs invokeRes calls).map FunctionCallOutput.call_id).Nodup)
    ∧ (calls ≠ [] →
        (loopStep turns invokeRes s).toolOutputs
          = some (buildToolOutputs invokeRes calls)
        ∧ (loopStep turns invokeRes s).isComplete = false)
    ∧ (calls = [] →
        (loopStep turns invokeRes s).isComplete = true
        ∧ (loopStep turns invokeRes s).toolOutputs = s.toolOutputs) := by
  have hmap : (buildToolOutputs invokeRes calls).map FunctionCallOutput.call_id
      = calls.map FunctionCall.call_id := by
    simp [buildToolOutputs]
  refine ⟨hmap, ?_, ?_, ?_⟩
  · intro hnd
    rw [hmap]
    exact hnd
  · intro hne
    have hemp : calls.isEmpty = false := by
      cases calls with
      | nil => exact absurd rfl hne
      | cons a l => rfl
    constructor <;> simp [loopStep, hrun, hcalls, hemp]
  · intro heq
    subst heq
    constructor <;> simp [loopStep, hrun, hcalls]

/-- Witness for C2 at a concrete two-call turn. -/
theorem tool_outputs_batch_per_turn_witness :
    ((fun _ => [(⟨"id-a", "get_balance", "argA"⟩ : FunctionCall),
                ⟨"id-b", "pay_service", "argB"⟩]) 0
        = [(⟨"id-a", "get_balance", "argA"⟩ : FunctionCall),
           ⟨"id-b", "pay_service", "argB"⟩])
    ∧ (((buildToolOutputs (fun _ => "out")
          [(⟨"id-a", "get_balance", "argA"⟩ : FunctionCall),
           ⟨"id-b", "pay_service", "argB"⟩]).map FunctionCallOutput.call_id
        = [(⟨"id-a", "get_balance", "argA"⟩ : FunctionCall),
           ⟨"id-b", "pay_service", "argB"⟩].map FunctionCall.call_id)
      ∧ (([(⟨"id-a", "get_balance", "argA"⟩ : FunctionCall),
           ⟨"id-b", "pay_service", "argB"⟩].map FunctionCall.call_id).Nodup →
          ((buildToolOutputs (fun _ => "out")
            [(⟨"id-a", "get_balance", "argA"⟩ : FunctionCall),
             ⟨"id-b", "pay_service", "argB"⟩]).map FunctionCallOutput.call_id).Nodup)
      ∧ ([(⟨"id-a", "get_balance", "argA"⟩ : FunctionCall),
          ⟨"id-b", "pay_service", "argB"⟩] ≠ [] →
          (loopStep (fun _ => [(⟨"id-a", "get_balance", "argA"⟩ : FunctionCall),
                               ⟨"id-b", "pay_service", "argB"⟩]) (fun _ => "out")
            (initLoopState "hola")).toolOutputs
            = some (buildToolOutputs (fun _ => "out")
                [(⟨"id-a", "get_balance", "argA"⟩ : FunctionCall),
                 ⟨"id-b", "pay_service", "argB"⟩])
          ∧ (loopStep (fun _ => [(⟨"id-a", "get_balance", "argA"⟩ : FunctionCall),
                                 ⟨"id-b", "pay_service", "argB"⟩]) (fun _ => "out")
              (initLoopState "hola")).isComplete = false)
      ∧ ([(⟨"id-a", "get_balance", "argA"⟩ : FunctionCall),
          ⟨"id-b", "pay_service", "argB"⟩] = [] →
          (loopStep (fun _ => [(⟨"id-a", "get_balance", "argA"⟩ : FunctionCall),
                               ⟨"id-b", "pay_service", "argB"⟩]) (fun _ => "out")
            (initLoopState "hola")).isComplete = true
          ∧ (loopStep (fun _ => [(⟨"id-a", "get_balance", "argA"⟩ : FunctionCall),
                                 ⟨"id-b", "pay_service", "argB"⟩]) (fun _ => "out")
              (initLoopState "hola")).toolOutputs
              = (initLoopState "hola").toolOutputs)) :=
  ⟨rfl, tool_outputs_batch_per_turn (fun _ => "out")
    (fun _ => [⟨"id-a", "get_balance", "argA"⟩, ⟨"id-b", "pay_service", "argB"⟩])
    (initLoopState "hola")
    [⟨"id-a", "get_balance", "argA"⟩, ⟨"id-b", "pay_service", "argB"⟩] rfl rfl⟩

/-- C4: with `confirmation` and `balance` populated,
`DecisionExecutor.handle_decision` takes exactly one action — declined
confirmation yields the cancellation message; a non-positive amount
yields the amount-must-be-positive message; an amount above the balance
yields the insufficient-funds message with both amounts and the
currency interpolated; otherwise the state is forwarded to the payment
step with no terminal output. -/
theorem handle_decision_cases (state : WorkflowState)
    (c : PaymentConfirmationResult) (b : BalanceResult)
    (hc : state.confirmation = some c) (hb : state.balance = some b) :
    (c.Confirmed = false →
      handle_decision state = .yieldOutput cancelledMessage)
    ∧ (c.Confirmed = true → c.Amount ≤ 0 →
      handle_decision state = .yieldOutput amountNotPositiveMessage)
    ∧ (c.Confirmed = true → 0 < c.Amount → b.Balance < c.Amount →
      handle_decision state
        = .yieldOutput (insufficientFundsMessage c.Amount b.Balance b.Currency))
    ∧ (c.Confirmed = true → 0 < c.Amount → c.Amount ≤ b.Balance →
      handle_decision state = .forward state) := by
  refine ⟨?_, ?_, ?_, ?_⟩
  · intro h
    simp [handle_decision, hc, h]
  · intro h1 h2
    exact handle_decision_nonpositive state c hc h1 h2
  · intro h1 h2 h3
    have h2' : ¬ c.Amount ≤ 0 := not_le.mpr h2
    simp [handle_decision, hc, hb, h1, h2', h3]
  · intro h1 h2 h3
    have h2' : ¬ c.Amount ≤ 0 := not_le.mpr h2
    have h3' : ¬ c.Amount > b.Balance := not_lt.mpr h3
    simp [handle_decision, hc, hb, h1, h2', h3']

/-- A concrete workflow state for the C4 witness: confirmed, amount 20,
balance 50 — the all-checks-passed branch. -/
def wsDecision : WorkflowState :=
  { confirmation := some
      { IsComplete := true, Confirmed := true, Amount := 20,
        ServiceId := "SVC001", UserMessage := "" },
    balance := some { Balance := 50, Currency := "S/.", ErrorMessage := "" } }

/-- Witness for C4 at the concrete confirmed state `wsDecision`. -/
theorem handle_decision_cases_witness :
    (wsDecision.confirmation = some
      { IsComplete := true, Confirmed := true, Amount := 20,
        ServiceId := "SVC001", UserMessage := "" }
    ∧ wsDecision.balance = some
      { Balance := 50, Currency := "S/.", ErrorMessage := "" })
    ∧ (((true : Bool) = true → (20 : ℚ) ≤ 0 → False)
    ∧ handle_decision wsDecision = .forward wsDecision) := by
  refine ⟨⟨rfl, rfl⟩, ⟨by decide, ?_⟩⟩
  exact (handle_decision_cases wsDecision
    { IsComplete := true, Confirmed := true, Amount := 20,
      ServiceId := "SVC001", UserMessage := "" }
    { Balance := 50, Currency := "S/.", ErrorMessage := "" }
    rfl rfl).2.2.2 rfl (by norm_num) (by norm_num)

/-- C5: every executor whose handler needs upstream-populated
`WorkflowState` fields checks them before use and yields a terminal
error output when one is `None`: `ConfirmationExecutor` for
`service_selection`/`balance`, `DecisionExecutor` for `confirmation`,
`PaymentExecutor` for `confirmation`/`service_selection`; being total
Lean functions, the embedded handlers return this output without
evaluating the absent value. -/
theorem executors_check_required_fields
    (a1 : String × String × String × ℚ × String → AgentResponse)
    (a2 : String × String × ℚ → AgentResponse)
    (state : WorkflowState) :
    (state.service_selection = none ∨ state.balance = none →
      handle_confirmation a1 state = .yieldOutput "Error: Missing required data")
    ∧ (state.confirmation = none →
      handle_decision state = .yieldOutput "Error: No confirmation data")
    ∧ (state.confirmation = none ∨ state.service_selection = none →
      handle_payment a2 state = .yieldOutput "Error: Missing payment data") := by
  refine ⟨?_, ?_, ?_⟩
  · rintro (h | h)
    · cases hb : state.balance <;> simp [handle_confirmation, h, hb]
    · cases hs : state.service_selection <;> simp [handle_confirmation, h, hs]
  · intro h
    simp [handle_decision, h]
  · rintro (h | h)
    · cases hs : state.service_selection <;> simp [handle_payment, h, hs]
    · cases hcf : state.confirmation <;> simp [handle_payment, h, hcf]

/-- Witness for C5 at the freshly initialised workflow state, whose
optional fields are all `None`. -/
theorem executors_check_required_fields_witness :
    (({} : WorkflowState).service_selection = none
      ∧ ({} : WorkflowState).confirmation = none)
    ∧ (handle_confirmation (fun _ => ⟨"ok"⟩) {}
        = .yieldOutput "Error: Missing required data"
      ∧ handle_decision {} = .yieldOutput "Error: No confirmation data"
      ∧ handle_payment (fun _ => ⟨"ok"⟩) {}
        = .yieldOutput "Error: Missing payment data") := by
  have h := executors_check_required_fields
    (fun _ => ⟨"ok"⟩) (fun _ => ⟨"ok"⟩) {}
  exact ⟨⟨rfl, rfl⟩, h.1 (Or.inl rfl), h.2.1 rfl, h.2.2 (Or.inl rfl)⟩

/-- C6: a `pay_service` call of 100.00 against `acct-123` (balance
20.50) returns a non-empty `error_message` ("Insufficient funds."), an
empty `receipt_id`, and leaves the stores — in particular the 20.50
balance — unchanged; generally, every `pay_service` call returning a
non-empty `error_message` leaves account balances and the receipts
store unchanged. -/
theorem pay_service_error_no_mutation :
    (∀ (uuidHex : List Char) (now : Timestamp),
      (pay_service pluginInit "acct-123" "SVC001" 100.00 uuidHex now).1.error_message
        = "Insufficient funds."
      ∧ (pay_service pluginInit "acct-123" "SVC001" 100.00 uuidHex now).1.receipt_id = ""
      ∧ (pay_service pluginInit "acct-123" "SVC001" 100.00 uuidHex now).2 = pluginInit
      ∧ get_balance (pay_service pluginInit "acct-123" "SVC001" 100.00 uuidHex now).2
          "acct-123"
          = { balance := 20.50, currency := "S/.", error_message := "" })
    ∧ (∀ (st : PluginState) (aid sid : String) (amt : ℚ)
        (uuidHex : List Char) (now : Timestamp),
        (pay_service st aid sid amt uuidHex now).1.error_message ≠ "" →
        (pay_service st aid sid amt uuidHex now).2 = st) := by
  constructor
  · intro u n
    have hacc : lookupKey "acct-123" pluginInit.accounts
        = some { id := "acct-123", balance := 20.50, currency := "S/." } := by
      norm_num [pluginInit, lookupKey]
    have hlt : ((20.50 : ℚ) < 100.00) := by norm_num
    simp [pay_service, hacc, hlt, get_balance]
  · intro st aid sid amt u n h
    cases hacc : lookupKey aid st.accounts with
    | none => simp [pay_service, hacc]
    | some account =>
      by_cases hb : account.balance < amt
      · simp [pay_service, hacc, hb]
      · cases hsvc : lookupKey sid st.services with
        | none => simp [pay_service, hacc, hb, hsvc]
        | some svc =>
          exfalso
          apply h
          simp [pay_service, hacc, hb, hsvc]

/-- Witness for the general part of C6: an unknown account leaves the
stores untouched. -/
theorem pay_service_error_no_mutation_witness :
    (pay_service pluginInit "acct-999" "SVC001" 5 [] ⟨"", ""⟩).1.error_message ≠ ""
    ∧ (pay_service pluginInit "acct-999" "SVC001" 5 [] ⟨"", ""⟩).2 = pluginInit :=
  ⟨by decide,
   pay_service_error_no_mutation.2 pluginInit "acct-999" "SVC001" 5 [] ⟨"", ""⟩
     (by decide)⟩

/-- C7: starting from the initial stores (acct-123 holding 20.50), a
`pay_service` of 15.00 for the registered service SVC001 succeeds: the
`error_message` is empty, the `receipt_id` is "RCP-" followed by the
12 uppercase hex characters obtained from the fresh UUID hex
rendering, the balance becomes 5.50, and a subsequent `get_balance`
for acct-123 returns balance 5.50. -/
theorem pay_service_success_scenario
    (uuidHex : List Char) (now : Timestamp)
    (hlen : uuidHex.length = 32)
    (hhex : ∀ c ∈ uuidHex, c ∈ lowerHexChars) :
    (pay_service pluginInit "acct-123" "SVC001" 15.00 uuidHex now).1.error_message = ""
    ∧ (pay_service pluginInit "acct-123" "SVC001" 15.00 uuidHex now).1.receipt_id
        = "RCP-" ++ String.mk (receiptSuffix uuidHex)
    ∧ (receiptSuffix uuidHex).length = 12
    ∧ (∀ c ∈ receiptSuffix uuidHex, c ∈ upperHexChars)
    ∧ lookupKey "acct-123"
        (pay_service pluginInit "acct-123" "SVC001" 15.00 uuidHex now).2.accounts
        = some { id := "acct-123", balance := 5.50, currency := "S/." }
    ∧ get_balance (pay_service pluginInit "acct-123" "SVC001" 15.00 uuidHex now).2
        "acct-123"
        = { balance := 5.50, currency := "S/.", error_message := "" } := by
  have hacc : lookupKey "acct-123" pluginInit.accounts
      = some { id := "acct-123", balance := 20.50, currency := "S/." } := by
    norm_num [pluginInit, lookupKey]
  have hsvc : lookupKey "SVC001" pluginInit.services
      = some { id := "SVC001", name := "Luz del Sur", category := "Electricidad" } := by
    decide
  have hge : ¬ ((20.50 : ℚ) < 15.00) := by norm_num
  have hupd : lookupKey "acct-123"
      (updateKey "acct-123"
        (fun a => { a with balance := a.balance - 15.00 }) pluginInit.accounts)
      = some { id := "acct-123", balance := 5.50, currency := "S/." } := by
    norm_num [pluginInit, lookupKey, updateKey]
  refine ⟨?_, ?_, ?_, ?_, ?_, ?_⟩
  · simp [pay_service, hacc, hsvc, hge]
  · simp [pay_service, hacc, hsvc, hge]
  · simp [receiptSuffix, hlen]
  · intro c hc
    simp only [receiptSuffix, List.mem_map] at hc
    obtain ⟨a, ha, rfl⟩ := hc
    exact toUpper_lowerHex_mem a (hhex a (List.mem_of_mem_take ha))
  · simp [pay_service, hacc, hsvc, hge, hupd]
  · simp [pay_service, get_balance, hacc, hsvc, hge, hupd]

/-- Witness for C7 at a concrete 32-char lowercase-hex UUID rendering. -/
theorem pay_service_success_scenario_witness :
    (("0123456789abcdef0123456789abcdef".toList.length = 32
      ∧ ∀ c ∈ "0123456789abcdef0123456789abcdef".toList, c ∈ lowerHexChars))
    ∧ ((pay_service pluginInit "acct-123" "SVC001" 15.00
          "0123456789abcdef0123456789abcdef".toList ⟨"t0", "t0"⟩).1.error_message = ""
      ∧ (pay_service pluginInit "acct-123" "SVC001" 15.00
          "0123456789abcdef0123456789abcdef".toList ⟨"t0", "t0"⟩).1.receipt_id
          = "RCP-" ++ String.mk (receiptSuffix "0123456789abcdef0123456789abcdef".toList)
      ∧ (receiptSuffix "0123456789abcdef0123456789abcdef".toList).length = 12
      ∧ (∀ c ∈ receiptSuffix "0123456789abcdef0123456789abcdef".toList,
          c ∈ upperHexChars)
      ∧ lookupKey "acct-123"
          (pay_service pluginInit "acct-123" "SVC001" 15.00
            "0123456789abcdef0123456789abcdef".toList ⟨"t0", "t0"⟩).2.accounts
          = some { id := "acct-123", balance := 5.50, currency := "S/." }
      ∧ get_balance (pay_service pluginInit "acct-123" "SVC001" 15.00
            "0123456789abcdef0123456789abcdef".toList ⟨"t0", "t0"⟩).2 "acct-123"
          = { balance := 5.50, currency := "S/.", error_message := "" }) :=
  ⟨⟨by decide, by decide⟩,
   pay_service_success_scenario "0123456789abcdef0123456789abcdef".toList
     ⟨"t0", "t0"⟩ (by decide) (by decide)⟩

theorem account_balance_nonneg (aid : String) (acct : AccountInfo)
    (hacc : lookupKey aid pluginInit.accounts = some acct) : 0 ≤ acct.balance := by
  simp only [pluginInit, lookupKey] at hacc
  split at hacc
  · cases hacc
    norm_num
  · split at hacc
    · cases hacc
      norm_num
    · cases hacc

/-- C9: `pay_service` never checks positivity of `amount`: for every
registered account and service, a negative amount passes the
`balance < amount` guard, the call succeeds with an empty
`error_message` and a receipt, and the balance increases by `|amount|`;
the guard against non-positive amounts lives only in the
Decision Executor, which yields the amount-must-be-positive message. -/
theorem pay_service_accepts_negative_amount
    (aid sid : String) (acct : AccountInfo) (svc : ServiceInfo)
    (amt : ℚ) (uuidHex : List Char) (now : Timestamp)
    (hacc : lookupKey aid pluginInit.accounts = some acct)
    (hsvc : lookupKey sid pluginInit.services = some svc)
    (hneg : amt < 0) :
    (pay_service pluginInit aid sid amt uuidHex now).1.error_message = ""
    ∧ (pay_service pluginInit aid sid amt uuidHex now).1.receipt_id ≠ ""
    ∧ lookupKey aid (pay_service pluginInit aid sid amt uuidHex now).2.accounts
        = some { acct with balance := acct.balance + |amt| }
    ∧ acct.balance < acct.balance + |amt|
    ∧ handle_decision
        { confirmation := some
            { IsComplete := true, Confirmed := true, Amount := amt,
              ServiceId := sid, UserMessage := "" } }
        = .yieldOutput amountNotPositiveMessage := by
  have hbal : 0 ≤ acct.balance := account_balance_nonneg aid acct hacc
  have hlt : ¬ acct.balance < amt := not_lt.mpr (hneg.le.trans hbal)
  have habs : 0 < |amt| := abs_pos.mpr hneg.ne
  refine ⟨by simp [pay_service, hacc, hsvc, hlt], ?_, ?_, by linarith, ?_⟩
  · have hid : (pay_service pluginInit aid sid amt uuidHex now).1.receipt_id
        = "RCP-" ++ String.mk (receiptSuffix uuidHex) := by
      simp [pay_service, hacc, hsvc, hlt]
    rw [hid]
    exact rcp_ne_empty _
  · have haccs : (pay_service pluginInit aid sid amt uuidHex now).2.accounts
        = updateKey aid (fun a => { a with balance := a.balance - amt })
            pluginInit.accounts := by
      simp [pay_service, hacc, hsvc, hlt]
    rw [haccs, lookup_update_self, hacc]
    have : acct.balance - amt = acct.balance + |amt| := by
      rw [abs_of_neg hneg]
      ring
    simp [Option.map, this]
  · exact handle_decision_nonpositive _ _ rfl rfl hneg.le

/-- Witness for C9 at acct-123, SVC004 and amount -5. -/
theorem pay_service_accepts_negative_amount_witness :
    (lookupKey "acct-123" pluginInit.accounts
        = some { id := "acct-123", balance := 20.50, currency := "S/." }
      ∧ lookupKey "SVC004" pluginInit.services
        = some { id := "SVC004", name := "Netflix", category := "Streaming" }
      ∧ ((-5 : ℚ) < 0))
    ∧ ((pay_service pluginInit "acct-123" "SVC004" (-5) [] ⟨"", ""⟩).1.error_message = ""
      ∧ (pay_service pluginInit "acct-123" "SVC004" (-5) [] ⟨"", ""⟩).1.receipt_id ≠ ""
      ∧ lookupKey "acct-123"
          (pay_service pluginInit "acct-123" "SVC004" (-5) [] ⟨"", ""⟩).2.accounts
          = some { id := "acct-123", balance := (20.50 : ℚ) + |(-5 : ℚ)|,
                   currency := "S/." }
      ∧ ((20.50 : ℚ) < (20.50 : ℚ) + |(-5 : ℚ)|)
      ∧ handle_decision
          { confirmation := some
              { IsComplete := true, Confirmed := true, Amount := (-5 : ℚ),
                ServiceId := "SVC004", UserMessage := "" } }
          = .yieldOutput amountNotPositiveMessage) :=
  ⟨⟨by simp [pluginInit, lookupKey], by simp [pluginInit, lookupKey], by norm_num⟩,
   pay_service_accepts_negative_amount "acct-123" "SVC004"
     { id := "acct-123", balance := 20.50, currency := "S/." }
     { id := "SVC004", name := "Netflix", category := "Streaming" }
     (-5) [] ⟨"", ""⟩
     (by simp [pluginInit, lookupKey]) (by simp [pluginInit, lookupKey]) (by norm_num)⟩

/-- C10: the insufficient-funds guard is a strict `<`, so a payment of
exactly the current balance succeeds for every registered account and
service, with an empty `error_message` and the balance left at 0. -/
theorem pay_service_exact_balance_succeeds
    (st : PluginState) (aid sid : String) (acct : AccountInfo) (svc : ServiceInfo)
    (uuidHex : List Char) (now : Timestamp)
    (hacc : lookupKey aid st.accounts = some acct)
    (hsvc : lookupKey sid st.services = some svc) :
    (pay_service st aid sid acct.balance uuidHex now).1.error_message = ""
    ∧ (pay_service st aid sid acct.balance uuidHex now).1.receipt_id ≠ ""
    ∧ lookupKey aid (pay_service st aid sid acct.balance uuidHex now).2.accounts
        = some { acct with balance := 0 } := by
  have hlt : ¬ acct.balance < acct.balance := lt_irrefl _
  refine ⟨by simp [pay_service, hacc, hsvc, hlt], ?_, ?_⟩
  · have hid : (pay_service st aid sid acct.balance uuidHex now).1.receipt_id
        = "RCP-" ++ String.mk (receiptSuffix uuidHex) := by
      simp [pay_service, hacc, hsvc, hlt]
    rw [hid]
    exact rcp_ne_empty _
  · have haccs : (pay_service st aid sid acct.balance uuidHex now).2.accounts
        = updateKey aid (fun a => { a with balance := a.balance - acct.balance })
            st.accounts := by
      simp [pay_service, hacc, hsvc, hlt]
    rw [haccs, lookup_update_self, hacc]
    simp [Option.map]

/-- Witness for C10 at acct-124 (balance 250.00) and SVC003. -/
theorem pay_service_exact_balance_succeeds_witness :
    (lookupKey "acct-124" pluginInit.accounts
        = some { id := "acct-124", balance := 250.00, currency := "S/." }
      ∧ lookupKey "SVC003" pluginInit.services
        = some { id := "SVC003", name := "Claro Móvil", category := "Telefonía" })
    ∧ ((pay_service pluginInit "acct-124" "SVC003" 250.00 [] ⟨"", ""⟩).1.error_message = ""
      ∧ (pay_service pluginInit "acct-124" "SVC003" 250.00 [] ⟨"", ""⟩).1.receipt_id ≠ ""
      ∧ lookupKey "acct-124"
          (pay_service pluginInit "acct-124" "SVC003" 250.00 [] ⟨"", ""⟩).2.accounts
          = some { id := "acct-124", balance := 0, currency := "S/." }) :=
  ⟨⟨by simp [pluginInit, lookupKey], by simp [pluginInit, lookupKey]⟩,
   pay_service_exact_balance_succeeds pluginInit "acct-124" "SVC003"
     { id := "acct-124", balance := 250.00, currency := "S/." }
     { id := "SVC003", name := "Claro Móvil", category := "Telefonía" }
     [] ⟨"", ""⟩
     (by simp [pluginInit, lookupKey]) (by simp [pluginInit, lookupKey])⟩

theorem serviceInfo_roundtrip (s : ServiceInfo) :
    ServiceInfo.model_validate s.model_dump = some s := by
  simp [ServiceInfo.model_validate, ServiceInfo.model_dump, fieldStr, lookupKey]

theorem balanceInfo_roundtrip (b : BalanceInfo) :
    BalanceInfo.model_validate b.model_dump = some b := by
  simp [BalanceInfo.model_validate, BalanceInfo.model_dump, fieldStr, fieldNum, lookupKey]

theorem paymentResult_roundtrip (p : PaymentResult) :
    PaymentResult.model_validate p.model_dump = some p := by
  simp [PaymentResult.model_validate, PaymentResult.model_dump, fieldStr, lookupKey]

theorem billInfo_roundtrip (b : BillInfo) :
    BillInfo.model_validate b.model_dump = some b := by
  simp [BillInfo.model_validate, BillInfo.model_dump, fieldStr, fieldNum, lookupKey]

theorem validateServices_roundtrip (l : List ServiceInfo) :
    validateServices (l.map ServiceInfo.model_dump) = some l := by
  induction l with
  | nil => rfl
  | cons s t ih => simp [validateServices, serviceInfo_roundtrip, ih]

/-- C8: `invoke_function` converts a structured record result into a
plain map (a list of records into a list of maps) carrying exactly the
declared fields, and this serialization round-trips: validating the
produced map(s) reconstructs a record (list) equal to the original,
for every record type the registered tools return. -/
theorem invoke_function_result_roundtrip :
    (∀ l : List ServiceInfo,
      invokeConvert (.services l) = .list (l.map ServiceInfo.model_dump)
      ∧ validateServices (l.map ServiceInfo.model_dump) = some l)
    ∧ (∀ s : ServiceInfo,
      (ServiceInfo.model_dump s).map Prod.fst = ["id", "name", "category"])
    ∧ (∀ b : BalanceInfo,
      invokeConvert (.balance b) = .map b.model_dump
      ∧ BalanceInfo.model_validate b.model_dump = some b
      ∧ b.model_dump.map Prod.fst = ["balance", "currency", "error_message"])
    ∧ (∀ p : PaymentResult,
      invokeConvert (.payment p) = .map p.model_dump
      ∧ PaymentResult.model_validate p.model_dump = some p
      ∧ p.model_dump.map Prod.fst
          = ["receipt_id", "receipt_details", "error_message"])
    ∧ (∀ b : BillInfo,
      invokeConvert (.bill b) = .map b.model_dump
      ∧ BillInfo.model_validate b.model_dump = some b
      ∧ b.model_dump.map Prod.fst
          = ["bill_id", "customer_id", "service_id", "service_name", "amount",
             "currency", "due_date", "period", "status", "error_message"]) := by
  refine ⟨fun l => ⟨rfl, validateServices_roundtrip l⟩,
          fun s => rfl,
          fun b => ⟨rfl, balanceInfo_roundtrip b, rfl⟩,
          fun p => ⟨rfl, paymentResult_roundtrip p, rfl⟩,
          fun b => ⟨rfl, billInfo_roundtrip b, rfl⟩⟩

end PaymentWorkflow
